import Mathlib

/-!
Shallow embedding of `src/python/examples/advanced/plugins/writing_your_own/03_doing_stuff.py`
(the `HelloWorld` menu plugin of the skyplay repository).

Python integers are modelled as `Int` (Python `%` on a positive modulus agrees
with `Int.emod`, the floored/Euclidean remainder).  Python list subscription
`xs[i]`, which accepts negative indices counting from the end and raises
`IndexError` out of range, is modelled by `pyGetItem`, returning `Option`
(`none` = `IndexError`).  Python `str.split("\n")` is modelled by `pySplitNl`
on `List Char` (it keeps empty fields and returns `[[]]` on the empty string).
Handlers perform I/O, so the action table stores which handler is bound;
invoking an action is modelled either by returning the invoked handler
(`select_option`) or, where the outcome of the handler matters, by running an
arbitrary interpretation `impl : Handler → Except ε Unit` (`run_select`).
-/

/-- Python list subscription `xs[i]`: a negative index counts from the end;
an index out of range raises `IndexError`, modelled as `none`. -/
def pyGetItem {α : Type} (xs : List α) (i : Int) : Option α :=
  let j : Int := if i < 0 then i + xs.length else i
  if 0 ≤ j ∧ j < (xs.length : Int) then xs.get? j.toNat else none

/-- Python `text.split("\n")`: splits at every newline, keeping empty fields;
splitting the empty string yields one empty field. -/
def pySplitNl : List Char → List (List Char)
  | [] => [[]]
  | c :: rest =>
    match pySplitNl rest with
    | [] => [[]]
    | l :: ls => if c = '\n' then [] :: l :: ls else (c :: l) :: ls

/-- The five zero-argument handler methods of `HelloWorld` that populate
`self.actions` (`handle_pirate` … `handle_dolphin`). -/
inductive Handler : Type
  | pirate
  | monkey
  | robot
  | ninja
  | dolphin
deriving DecidableEq, Repr

/-- The mutable state of a `HelloWorld` instance: the cursor
`selected_option`, the label list `options` and the action table `actions`. -/
structure HelloWorld : Type where
  selected_option : Int
  options : List String
  actions : List Handler
deriving DecidableEq, Repr

namespace HelloWorld

/-- Constructor `__init__`: cursor 0, the five labels, the five handlers. -/
def init : HelloWorld :=
  { selected_option := 0
    options := ["Pirate", "Monkey", "Robot", "Ninja", "Dolphin"]
    actions := [.pirate, .monkey, .robot, .ninja, .dolphin] }

/-- Method `select_option`: `self.actions[self.selected_option]()` — look up and
invoke the action bound to the cursor; the returned value is the handler the
dispatch invokes (`none` = `IndexError`). -/
def select_option (s : HelloWorld) : Option Handler :=
  pyGetItem s.actions s.selected_option

/-- Method `next_option`: `self.selected_option = (self.selected_option + 1) % len(self.options)`. -/
def next_option (s : HelloWorld) : HelloWorld :=
  { s with selected_option := (s.selected_option + 1) % (s.options.length : Int) }

/-- Method `prev_option`: `self.selected_option = (self.selected_option - 1) % len(self.options)`. -/
def prev_option (s : HelloWorld) : HelloWorld :=
  { s with selected_option := (s.selected_option - 1) % (s.options.length : Int) }

/-- Method `up`: calls `prev_option`. -/
def up (s : HelloWorld) : HelloWorld := prev_option s

/-- Method `down`: calls `next_option`. -/
def down (s : HelloWorld) : HelloWorld := next_option s

/-- Method `right`: calls `select_option`. -/
def right (s : HelloWorld) : Option Handler := select_option s

/-- Method `get_current_option`: `self.options[self.selected_option]`. -/
def get_current_option (s : HelloWorld) : Option String :=
  pyGetItem s.options s.selected_option

/-- Method `get_next_option`: `self.options[(self.selected_option + 1) % len(self.options)]`. -/
def get_next_option (s : HelloWorld) : Option String :=
  pyGetItem s.options ((s.selected_option + 1) % (s.options.length : Int))

/-- Method `get_prev_option`: `self.options[(self.selected_option - 1) % len(self.options)]`. -/
def get_prev_option (s : HelloWorld) : Option String :=
  pyGetItem s.options ((s.selected_option - 1) % (s.options.length : Int))

/-- One `menu.write_option(row=…, margin=…, icon=…, text=…)` call. -/
structure WriteOp : Type where
  row : Nat
  margin : Nat
  icon : String
  text : String
deriving DecidableEq, Repr

/-- Method `redraw`: emits the three `write_option` calls — previous label on row 0,
current label with the marker icon on row 1, next label on row 2.  A failing
lookup (`IndexError`) gives `none`. -/
def redraw (s : HelloWorld) : Option (List WriteOp) := do
  let p ← get_prev_option s
  let c ← get_current_option s
  let n ← get_next_option s
  pure [⟨0, 1, "", p⟩, ⟨1, 1, ">", c⟩, ⟨2, 1, "", n⟩]

/-- Method `select_option` run against an interpretation `impl` of the handlers:
the dispatch looks the action up and invokes it; the state is returned
untouched when the handler returns, and the exception of the handler propagates
unchanged when it raises (`none` = `IndexError` on the lookup itself). -/
def run_select {ε : Type} (impl : Handler → Except ε Unit) (s : HelloWorld) :
    Option (Except ε HelloWorld) :=
  (pyGetItem s.actions s.selected_option).map fun h =>
    match impl h with
    | .ok _ => .ok s
    | .error e => .error e

/-- Method `right` run against an interpretation of the handlers: calls `run_select`. -/
def run_right {ε : Type} (impl : Handler → Except ε Unit) (s : HelloWorld) :
    Option (Except ε HelloWorld) :=
  run_select impl s

/-- Thread body `do_pirate_update`, applied to the captured output of
`subprocess.check_output` on the ping command line:
`result = result.split("\n"); result = result[len(result)-2]; print(result)`.
The returned value is the line printed (`none` = `IndexError`). -/
def do_pirate_update (output : List Char) : Option (List Char) :=
  let result := pySplitNl output
  pyGetItem result ((result.length : Int) - 2)

/-- The reading the spec gives of the extraction step: "extracts the last line" of the
captured text — the final field of the newline split. -/
def lastLine_spec (output : List Char) : Option (List Char) :=
  (pySplitNl output).getLast?

/-- The handler that the table of claim C1 binds to each option label
(Pirate→handle_pirate, …, Dolphin→handle_dolphin). -/
def boundHandler : String → Option Handler
  | "Pirate" => some .pirate
  | "Monkey" => some .monkey
  | "Robot" => some .robot
  | "Ninja" => some .ninja
  | "Dolphin" => some .dolphin
  | _ => none

/-- The cursor invariant: `0 <= selected_option < len(options)`. -/
def Inv (s : HelloWorld) : Prop :=
  0 ≤ s.selected_option ∧ s.selected_option < (s.options.length : Int)

instance (s : HelloWorld) : Decidable (Inv s) := by
  unfold Inv; infer_instance

/-- The three joystick events the script binds at module level. -/
inductive Event : Type
  | up
  | down
  | right
deriving DecidableEq, Repr

/-- Routing of the joystick callbacks registered at the bottom of the script:
UP runs `menu.up()`, DOWN runs `menu.down()`, RIGHT runs `menu.right()` on the
active plugin.  The second component is the handler the event invokes, if any:
the navigation callbacks only move the cursor and call no handler. -/
def handleEvent (s : HelloWorld) : Event → HelloWorld × Option Handler
  | .up => (HelloWorld.up s, none)
  | .down => (HelloWorld.down s, none)
  | .right => (s, HelloWorld.right s)

end HelloWorld

namespace HelloWorld

theorem pyGetItem_of_nonneg {α : Type} (xs : List α) (i : Int)
    (h0 : 0 ≤ i) (h1 : i < (xs.length : Int)) :
    pyGetItem xs i = xs.get? i.toNat := by
  have hneg : ¬ i < 0 := by omega
  simp [pyGetItem, hneg, h0, h1]

theorem pyGetItem_isSome_of_nonneg {α : Type} (xs : List α) (i : Int)
    (h0 : 0 ≤ i) (h1 : i < (xs.length : Int)) :
    (pyGetItem xs i).isSome := by
  rw [pyGetItem_of_nonneg xs i h0 h1]
  have hlt : i.toNat < xs.length := by omega
  rw [List.get?_eq_get hlt]
  rfl

theorem emod_bounds (a n : Int) (hn : 0 < n) : 0 ≤ a % n ∧ a % n < n :=
  ⟨Int.emod_nonneg a (by omega), Int.emod_lt_of_pos a hn⟩

theorem down_iterate_options (k : Nat) (s : HelloWorld) :
    (down^[k] s).options = s.options := by
  induction k generalizing s with
  | zero => rfl
  | succ n ih =>
    rw [Function.iterate_succ_apply']
    exact ih s

theorem down_iterate_cursor (s : HelloWorld) (k : Nat) :
    (down^[k + 1] s).selected_option
      = (s.selected_option + ((k : Int) + 1)) % (s.options.length : Int) := by
  induction k with
  | zero =>
    show (down s).selected_option = _
    simp [down, next_option]
  | succ n ih =>
    rw [Function.iterate_succ_apply']
    show (down (down^[n + 1] s)).selected_option = _
    simp only [down, next_option]
    rw [down_iterate_options (n + 1) s, ih, Int.emod_add_emod]
    congr 1
    push_cast
    ring

end HelloWorld

namespace HelloWorld

theorem pySplitNl_ne_nil (t : List Char) : pySplitNl t ≠ [] := by
  induction t with
  | nil => simp [pySplitNl]
  | cons c rest ih =>
    cases h : pySplitNl rest with
    | nil => simp [pySplitNl, h]
    | cons l ls =>
      simp only [pySplitNl, h]
      split_ifs <;> simp

theorem pySplitNl_append_newline (t : List Char) :
    pySplitNl (t ++ ['\n']) = pySplitNl t ++ [[]] := by
  induction t with
  | nil => rfl
  | cons c rest ih =>
    have hne := pySplitNl_ne_nil rest
    cases h : pySplitNl rest with
    | nil => exact absurd h hne
    | cons l ls =>
      have hih : pySplitNl (rest ++ ['\n']) = l :: (ls ++ [[]]) := by
        rw [ih, h]
        rfl
      rw [List.cons_append]
      simp only [pySplitNl, hih, h]
      split_ifs <;> simp

end HelloWorld

namespace HelloWorld

/-- Claim C1: for every cursor index i in [0, 5), `right()` / `select_option()`
invokes exactly the i-th entry of the actions list, which is the handler bound
to the i-th option label (Pirate→handle_pirate, …, Dolphin→handle_dolphin);
the dispatch returns a single handler, so no other handler runs. -/
theorem select_option_invokes_aligned_action : ∀ i : Fin 5,
    right { init with selected_option := (i.val : Int) } =
        init.actions.get? i.val ∧
      init.actions.get? i.val = (init.options.get? i.val).bind boundHandler := by
  decide

/-- Claim C5: from the constructed state, one `down()` sets the cursor to 1
with current option Monkey, and one `up()` from cursor 0 wraps the cursor to 4
with current option Dolphin. -/
theorem scenario_down_monkey_up_dolphin :
    (down init).selected_option = 1 ∧
    get_current_option (down init) = some ("Monkey") ∧
    (up init).selected_option = 4 ∧
    get_current_option (up init) = some ("Dolphin") := by
  decide

end HelloWorld

namespace HelloWorld

/-- Claim C4: the cursor invariant `0 <= selected_option < len(options)` holds
after construction and is preserved by `next_option`, `prev_option`, `up` and
`down` (the modulo arithmetic keeps the cursor in range); under the invariant
the list subscriptions of `get_current_option`, `get_prev_option`,
`get_next_option` and `redraw` never raise `IndexError`, and neither does the
subscription of `select_option`, the action table having the length of the
option list.  (`select_option` and `redraw` do not touch the state at all, so
they preserve the invariant trivially.) -/
theorem cursor_invariant_preserved :
    Inv init ∧
    (∀ s, Inv s → Inv (next_option s) ∧ Inv (prev_option s) ∧ Inv (up s) ∧ Inv (down s)) ∧
    (∀ s, Inv s →
      (get_current_option s).isSome ∧ (get_prev_option s).isSome ∧
      (get_next_option s).isSome ∧ (redraw s).isSome) ∧
    (∀ s, Inv s → s.actions.length = s.options.length → (select_option s).isSome) := by
  refine ⟨by decide, ?_, ?_, ?_⟩
  · intro s hs
    have hN : 0 < (s.options.length : Int) := by
      rcases hs with ⟨h0, h1⟩
      omega
    have hnext := emod_bounds (s.selected_option + 1) _ hN
    have hprev := emod_bounds (s.selected_option - 1) _ hN
    exact ⟨hnext, hprev, hprev, hnext⟩
  · intro s hs
    rcases hs with ⟨h0, h1⟩
    have hN : 0 < (s.options.length : Int) := by omega
    have hnext := emod_bounds (s.selected_option + 1) _ hN
    have hprev := emod_bounds (s.selected_option - 1) _ hN
    have hc := pyGetItem_isSome_of_nonneg s.options s.selected_option h0 h1
    have hp := pyGetItem_isSome_of_nonneg s.options _ hprev.1 hprev.2
    have hn := pyGetItem_isSome_of_nonneg s.options _ hnext.1 hnext.2
    refine ⟨hc, hp, hn, ?_⟩
    obtain ⟨vp, hvp⟩ := Option.isSome_iff_exists.mp hp
    obtain ⟨vc, hvc⟩ := Option.isSome_iff_exists.mp hc
    obtain ⟨vn, hvn⟩ := Option.isSome_iff_exists.mp hn
    simp [redraw, get_prev_option, get_current_option, get_next_option] at hvp hvc hvn ⊢
    simp [hvp, hvc, hvn]
  · intro s hs hlen
    rcases hs with ⟨h0, h1⟩
    exact pyGetItem_isSome_of_nonneg s.actions s.selected_option h0 (by omega)

/-- Witness for C4: the invariant and the in-bounds subscriptions, evaluated on
the constructed state. -/
theorem cursor_invariant_preserved_witness :
    Inv init ∧ Inv (next_option init) ∧ Inv (prev_option init) ∧
    (get_current_option init).isSome ∧ (redraw init).isSome ∧
    init.actions.length = init.options.length ∧ (select_option init).isSome := by
  refine ⟨by decide, (cursor_invariant_preserved.2.1 init (by decide)).1,
    (cursor_invariant_preserved.2.1 init (by decide)).2.1,
    (cursor_invariant_preserved.2.2.1 init (by decide)).1,
    (cursor_invariant_preserved.2.2.1 init (by decide)).2.2.2,
    by decide,
    cursor_invariant_preserved.2.2.2 init (by decide) (by decide)⟩

end HelloWorld

namespace HelloWorld

/-- Claim C2: under the cursor invariant, `redraw` emits exactly three
`write_option` calls, one per row 0, 1, 2: row 0 carries the label at index
(selected_option − 1) mod N, row 1 the label at selected_option, row 2 the
label at (selected_option + 1) mod N, and the marker glyph ">" is the icon of
row 1 only, the other rows passing the empty icon. -/
theorem redraw_three_rows_marker_on_current : ∀ s, Inv s → ∃ tp tc tn,
    s.options.get? ((s.selected_option - 1) % (s.options.length : Int)).toNat = some tp ∧
    s.options.get? s.selected_option.toNat = some tc ∧
    s.options.get? ((s.selected_option + 1) % (s.options.length : Int)).toNat = some tn ∧
    redraw s = some [⟨0, 1, "", tp⟩, ⟨1, 1, ">", tc⟩, ⟨2, 1, "", tn⟩] := by
  intro s hs
  rcases hs with ⟨h0, h1⟩
  have hN : 0 < (s.options.length : Int) := by omega
  have hprev := emod_bounds (s.selected_option - 1) _ hN
  have hnext := emod_bounds (s.selected_option + 1) _ hN
  have mp : ((s.selected_option - 1) % (s.options.length : Int)).toNat < s.options.length := by
    rcases hprev with ⟨a, b⟩
    omega
  have mc : s.selected_option.toNat < s.options.length := by omega
  have mn : ((s.selected_option + 1) % (s.options.length : Int)).toNat < s.options.length := by
    rcases hnext with ⟨a, b⟩
    omega
  refine ⟨s.options.get ⟨_, mp⟩, s.options.get ⟨_, mc⟩, s.options.get ⟨_, mn⟩,
    List.get?_eq_get mp, List.get?_eq_get mc, List.get?_eq_get mn, ?_⟩
  simp [redraw, get_prev_option, get_current_option, get_next_option,
    pyGetItem_of_nonneg _ _ hprev.1 hprev.2,
    pyGetItem_of_nonneg _ _ h0 h1,
    pyGetItem_of_nonneg _ _ hnext.1 hnext.2,
    List.getElem?_eq_getElem mp, List.getElem?_eq_getElem mc, List.getElem?_eq_getElem mn]

/-- Witness for C2: the three rows that `redraw` emits on the constructed
state. -/
theorem redraw_three_rows_marker_on_current_witness :
    Inv init ∧ ∃ tp tc tn,
      init.options.get? ((init.selected_option - 1) % (init.options.length : Int)).toNat = some tp ∧
      init.options.get? init.selected_option.toNat = some tc ∧
      init.options.get? ((init.selected_option + 1) % (init.options.length : Int)).toNat = some tn ∧
      redraw init = some [⟨0, 1, "", tp⟩, ⟨1, 1, ">", tc⟩, ⟨2, 1, "", tn⟩] :=
  ⟨by decide, redraw_three_rows_marker_on_current init (by decide)⟩

/-- Claim C3: for every state satisfying the cursor invariant (so for every
option list length N ≥ 1 and cursor in [0, N)), N successive `down()` calls
return the cursor to its starting value; the witness instantiates this at the
constructed state with its N = 5. -/
theorem down_length_times_returns_cursor : ∀ s, Inv s →
    (down^[s.options.length] s).selected_option = s.selected_option := by
  intro s hs
  rcases hs with ⟨h0, h1⟩
  obtain ⟨m, hm⟩ : ∃ m, s.options.length = m + 1 :=
    ⟨s.options.length - 1, by omega⟩
  rw [hm, down_iterate_cursor s m]
  have hcast : ((m : Int) + 1) = ((s.options.length : Nat) : Int) := by
    rw [hm]
    push_cast
    ring
  rw [hcast]
  have : s.selected_option + (s.options.length : Int)
      = s.selected_option + (s.options.length : Int) * 1 := by ring
  rw [this, Int.add_mul_emod_self_left, Int.emod_eq_of_lt h0 h1]

/-- Witness for C3: five `down()` calls from the constructed state restore the
cursor. -/
theorem down_length_times_returns_cursor_witness :
    Inv init ∧ (down^[init.options.length] init).selected_option = init.selected_option :=
  ⟨by decide, down_length_times_returns_cursor init (by decide)⟩

end HelloWorld

namespace HelloWorld

theorem pyGetItem_of_neg {α : Type} (xs : List α) (i : Int)
    (h0 : i < 0) (h1 : 0 ≤ i + (xs.length : Int)) :
    pyGetItem xs i = xs.get? (i + (xs.length : Int)).toNat := by
  have h2 : i + (xs.length : Int) < (xs.length : Int) := by omega
  simp [pyGetItem, h0, h1, h2]

/-- Counterexample to claim C6 as stated: on the captured output "a\nb" (no
trailing newline) the extraction step prints "a", not the final line "b". -/
theorem pirate_update_not_last_line_counterexample :
    do_pirate_update (['a', '\n', 'b']) = some (['a']) ∧
    lastLine_spec (['a', '\n', 'b']) = some (['b']) ∧
    do_pirate_update (['a', '\n', 'b']) ≠ lastLine_spec (['a', '\n', 'b']) := by
  decide

/-- Claim C6 amended: for every captured output that ends with a newline (as
ping output does), the line `do_pirate_update` prints is the last line of the
text before the trailing newline — the last field of the newline split of the
text with its final newline removed. -/
theorem pirate_update_last_line_of_newline_terminated : ∀ t : List Char,
    do_pirate_update (t ++ ['\n']) = (pySplitNl t).getLast? := by
  intro t
  have hne := pySplitNl_ne_nil t
  have hlen : 0 < (pySplitNl t).length := List.length_pos.mpr hne
  simp only [do_pirate_update]
  rw [pySplitNl_append_newline]
  have hlapp : (pySplitNl t ++ [[]]).length = (pySplitNl t).length + 1 := by
    simp
  have hidx : (((pySplitNl t ++ [[]]).length : Int) - 2)
      = (((pySplitNl t).length - 1 : Nat) : Int) := by
    rw [hlapp]
    push_cast [hlen]
    omega
  rw [hidx, pyGetItem_of_nonneg _ _ (by omega) (by rw [hlapp]; omega),
    Int.toNat_natCast, List.get?_eq_getElem?,
    List.getElem?_append_left (by omega), List.getLast?_eq_getElem?]

/-- Counterexample to claim C7 as stated: on the output "x" the newline split
has a single field, fewer than the two the extraction expects, yet the
extraction does not raise: it returns that sole line. -/
theorem pirate_update_short_output_no_error_counterexample :
    (pySplitNl (['x'])).length = 1 ∧
    do_pirate_update (['x']) = some (['x']) ∧
    do_pirate_update (['x']) ≠ none := by
  decide

/-- Claim C7 amended: the extraction step never raises: splitting always
yields at least one field, and when it yields exactly one (no newline in the
output) the subscript len−2 = −1 counts from the end under Python indexing and
returns that sole field. -/
theorem pirate_update_never_errors :
    (∀ output : List Char, do_pirate_update output ≠ none) ∧
    (∀ output : List Char, (pySplitNl output).length = 1 →
      do_pirate_update output = (pySplitNl output).get? 0) := by
  constructor
  · intro output
    have hne := pySplitNl_ne_nil output
    have hlen : 0 < (pySplitNl output).length := List.length_pos.mpr hne
    simp only [do_pirate_update]
    rcases Nat.lt_or_ge (pySplitNl output).length 2 with h2 | h2
    · have h1 : (pySplitNl output).length = 1 := by omega
      rw [pyGetItem_of_neg _ _ (by omega) (by omega)]
      have hz : ((((pySplitNl output).length : Int) - 2) + ((pySplitNl output).length : Int)).toNat = 0 := by
        omega
      rw [hz, List.get?_eq_get hlen]
      simp
    · rw [pyGetItem_of_nonneg _ _ (by omega) (by omega)]
      have hlt : (((pySplitNl output).length : Int) - 2).toNat < (pySplitNl output).length := by
        omega
      rw [List.get?_eq_get hlt]
      simp
  · intro output h1
    simp only [do_pirate_update]
    rw [pyGetItem_of_neg _ _ (by omega) (by omega)]
    have hz : ((((pySplitNl output).length : Int) - 2) + ((pySplitNl output).length : Int)).toNat = 0 := by
      omega
    rw [hz]

/-- Witness for the amended claim C7: on the output "x" the split has one
field and the extraction returns it. -/
theorem pirate_update_never_errors_witness :
    (pySplitNl (['x'])).length = 1 ∧
    do_pirate_update (['x']) = (pySplitNl (['x'])).get? 0 :=
  ⟨by decide, pirate_update_never_errors.2 (['x']) (by decide)⟩

end HelloWorld

namespace HelloWorld

/-- Claim C8: handler exceptions are not caught on the selection path: when
the action bound to the cursor raises, `right()` / `select_option()`
propagates that very exception to its caller, and the only menu state in play
is the state from before the call — the dispatch performs no state update, as
the non-raising branch shows by returning the state unchanged. -/
theorem handler_exception_propagates :
    ∀ (ε : Type) (impl : Handler → Except ε Unit) (s : HelloWorld) (h : Handler) (e : ε),
      select_option s = some h →
      (impl h = Except.error e → run_right impl s = some (Except.error e)) ∧
      (∀ s2, run_right impl s = some (Except.ok s2) → s2 = s) := by
  intro ε impl s h e hsel
  have hsel2 : pyGetItem s.actions s.selected_option = some h := hsel
  constructor
  · intro he
    simp [run_right, run_select, hsel2, he]
  · intro s2 hr
    simp only [run_right, run_select, hsel2] at hr
    cases hi : impl h with
    | ok u =>
      simp [hi] at hr
      exact hr.symm
    | error e2 => simp [hi] at hr

/-- Witness for C8: with an interpretation under which every handler raises
the exception 7, selecting Pirate from the constructed state propagates
exactly that exception. -/
theorem handler_exception_propagates_witness :
    select_option init = some (Handler.pirate) ∧
    run_right (fun _ : Handler => (Except.error (7 : Nat) : Except Nat Unit)) init
      = some (Except.error 7) :=
  ⟨by decide,
    (handler_exception_propagates Nat (fun _ => Except.error 7) init Handler.pirate 7
      (by decide)).1 rfl⟩

/-- Claim C10: navigation is pure cursor movement: `up` and `down` change only
the `selected_option` field, leaving `options` and `actions` untouched, and
the joystick routing invokes no handler on UP or DOWN; `select_option`
(`run_select`) returns the state unchanged whenever the handler returns, so
the option and action tables fixed at construction persist unmodified. -/
theorem navigation_frame_conditions : ∀ s : HelloWorld,
    up s = { s with selected_option := (up s).selected_option } ∧
    down s = { s with selected_option := (down s).selected_option } ∧
    (up s).options = s.options ∧ (up s).actions = s.actions ∧
    (down s).options = s.options ∧ (down s).actions = s.actions ∧
    (handleEvent s Event.up).2 = none ∧
    (handleEvent s Event.down).2 = none ∧
    (handleEvent s Event.up).1 = up s ∧
    (handleEvent s Event.down).1 = down s ∧
    (∀ (ε : Type) (impl : Handler → Except ε Unit) (s2 : HelloWorld),
      run_select impl s = some (Except.ok s2) → s2 = s) := by
  intro s
  refine ⟨rfl, rfl, rfl, rfl, rfl, rfl, rfl, rfl, rfl, rfl, ?_⟩
  intro ε impl s2 hr
  simp only [run_select] at hr
  cases hl : pyGetItem s.actions s.selected_option with
  | none => rw [hl] at hr; simp at hr
  | some h =>
    rw [hl] at hr
    cases hi : impl h with
    | ok u =>
      simp [hi] at hr
      exact hr.symm
    | error e2 => simp [hi] at hr

/-- Witness for C10: running the dispatch on the constructed state with a
returning handler hands the very same state back. -/
theorem navigation_frame_conditions_witness :
    run_select (fun _ : Handler => (Except.ok () : Except Unit Unit)) init
      = some (Except.ok init) ∧
    init = init :=
  ⟨by rfl,
    (navigation_frame_conditions init).2.2.2.2.2.2.2.2.2.2 Unit
      (fun _ => Except.ok ()) init (by rfl)⟩

end HelloWorld
